import Mathlib

/-!
Shallow embedding of the asynchronous pipe transport of `r2pipe.rs`
(`src/r2async.rs`): process spawning, the startup handshake, newline /
null-byte framed command exchange, JSON decoding and teardown.

Byte streams are modelled as `List Nat` (each entry one byte). The child's
pending standard output is a list of bytes still to be read; the bytes the
transport has written to the child's standard input are recorded as a trace.
-/

/-- Modelled from the spec: the crate's `Error` type is declared at the crate
root, outside the provided source. Section 7 of the spec lists its kinds;
`MalformedJson` wraps the JSON parser's diagnostic. -/
inductive Error where
  | SpawnFailed
  | IoError
  | ProtocolError
  | EncodingError
  | EmptyResponse
  | MalformedJson (diag : String)
deriving DecidableEq

/-- Rust's `char::is_whitespace`: the Unicode White_Space property. -/
def rustIsWhitespace (c : Char) : Bool :=
  let n := c.toNat
  (0x09 <= n && n <= 0x0D) || n == 0x20 || n == 0x85 || n == 0xA0 ||
  n == 0x1680 || (0x2000 <= n && n <= 0x200A) || n == 0x2028 ||
  n == 0x2029 || n == 0x202F || n == 0x205F || n == 0x3000

/-- Rust's `str::trim`: strips leading and trailing whitespace characters. -/
def rustTrim (s : String) : String :=
  String.mk (((s.data.dropWhile rustIsWhitespace).reverse.dropWhile
      rustIsWhitespace).reverse)

/-- UTF-8 encoding of a single character (Rust `str::as_bytes` is the UTF-8
encoding of the string). -/
def utf8EncodeChar (c : Char) : List Nat :=
  let n := c.toNat
  if n < 0x80 then [n]
  else if n < 0x800 then [0xC0 + n / 0x40, 0x80 + n % 0x40]
  else if n < 0x10000 then
    [0xE0 + n / 0x1000, 0x80 + (n / 0x40) % 0x40, 0x80 + n % 0x40]
  else
    [0xF0 + n / 0x40000, 0x80 + (n / 0x1000) % 0x40,
     0x80 + (n / 0x40) % 0x40, 0x80 + n % 0x40]

/-- UTF-8 encoding of a string as a byte list. -/
def utf8Encode (s : String) : List Nat :=
  (s.data.map utf8EncodeChar).flatten

/-- Strict UTF-8 decoding of a byte list into characters, mirroring Rust's
`String::from_utf8` validation: continuation bytes must be in `0x80..0xBF`,
overlong encodings, surrogate code points and values above `0x10FFFF` are
rejected. Returns `none` on invalid input. -/
def utf8DecodeChars : List Nat → Option (List Char)
  | [] => some []
  | b :: rest =>
    if b < 0x80 then
      (utf8DecodeChars rest).map (fun cs => Char.ofNat b :: cs)
    else if b < 0xC2 then none
    else if b < 0xE0 then
      match rest with
      | b1 :: rest1 =>
        if 0x80 <= b1 && b1 < 0xC0 then
          (utf8DecodeChars rest1).map
            (fun cs => Char.ofNat ((b - 0xC0) * 0x40 + (b1 - 0x80)) :: cs)
        else none
      | [] => none
    else if b < 0xF0 then
      match rest with
      | b1 :: b2 :: rest2 =>
        if 0x80 <= b1 && b1 < 0xC0 && 0x80 <= b2 && b2 < 0xC0 then
          let n := (b - 0xE0) * 0x1000 + (b1 - 0x80) * 0x40 + (b2 - 0x80)
          if 0x800 <= n && !(0xD800 <= n && n < 0xE000) then
            (utf8DecodeChars rest2).map (fun cs => Char.ofNat n :: cs)
          else none
        else none
      | _ => none
    else if b < 0xF5 then
      match rest with
      | b1 :: b2 :: b3 :: rest3 =>
        if 0x80 <= b1 && b1 < 0xC0 && 0x80 <= b2 && b2 < 0xC0 &&
            0x80 <= b3 && b3 < 0xC0 then
          let n := (b - 0xF0) * 0x40000 + (b1 - 0x80) * 0x1000 +
            (b2 - 0x80) * 0x40 + (b3 - 0x80)
          if 0x10000 <= n && n < 0x110000 then
            (utf8DecodeChars rest3).map (fun cs => Char.ofNat n :: cs)
          else none
        else none
      | _ => none
    else none

/-- Strict UTF-8 decoding of a byte list into a string. -/
def utf8Decode (bs : List Nat) : Option String :=
  (utf8DecodeChars bs).map String.mk

/-- `BufReader::read_until(delim, ..)`: consume bytes from the stream until the
delimiter byte is found (inclusive) or end of stream. Returns the bytes read
and the remaining stream. At end of stream the delimiter is absent from the
returned bytes. -/
def read_until (delim : Nat) : List Nat → List Nat × List Nat
  | [] => ([], [])
  | b :: rest =>
    if b = delim then ([b], rest)
    else
      let p := read_until delim rest
      (b :: p.1, p.2)

/-- Modelled from the spec: `process_result` lives in `r2pipe.rs`, which is not
among the provided sources. Per spec sections 4.2 and 7: a frame that ends with
the null terminator yields the preceding bytes decoded as UTF-8
(`EncodingError` if they are not valid UTF-8; the empty frame yields the empty
string, a success), while bytes that ended without a null terminator mean end
of stream was reached first, a `ProtocolError`. -/
def process_result (res : List Nat) : Except Error String :=
  if res.getLast? = some 0 then
    match utf8Decode res.dropLast with
    | some s => Except.ok s
    | none => Except.error Error.EncodingError
  else Except.error Error.ProtocolError

/-- The operating-system process behind a spawned child: whether it is still
running, and whether the tokio kill-on-drop flag was set when it was spawned. -/
structure ChildProc where
  running : Bool
  killOnDropFlag : Bool
deriving DecidableEq

/-- `std::process::Stdio` configuration for one standard stream of the child
(only the two configurations the source uses). -/
inductive Stdio where
  | inherit
  | piped
deriving DecidableEq

/-- The tokio `Command` builder state: program, argument vector, stream
configuration and the kill-on-drop flag. -/
structure Command where
  program : String
  argv : List String
  stdin_cfg : Stdio
  stdout_cfg : Stdio
  kill_on_drop_flag : Bool
deriving DecidableEq

/-- `Command::new`: fresh builder; streams default to inherited and
kill-on-drop defaults to off. -/
def Command.new (p : String) : Command :=
  { program := p, argv := [], stdin_cfg := Stdio.inherit,
    stdout_cfg := Stdio.inherit, kill_on_drop_flag := false }

/-- `Command::arg`: append one argument. -/
def Command.arg (c : Command) (a : String) : Command :=
  { c with argv := c.argv ++ [a] }

/-- `Command::args`: append a sequence of arguments in order. -/
def Command.args (c : Command) (l : List String) : Command :=
  { c with argv := c.argv ++ l }

/-- `Command::stdin`: configure the child's standard input. -/
def Command.stdin (c : Command) (s : Stdio) : Command :=
  { c with stdin_cfg := s }

/-- `Command::stdout`: configure the child's standard output. -/
def Command.stdout (c : Command) (s : Stdio) : Command :=
  { c with stdout_cfg := s }

/-- `Command::kill_on_drop`: set the kill-on-drop flag. -/
def Command.kill_on_drop (c : Command) (b : Bool) : Command :=
  { c with kill_on_drop_flag := b }

/-- A successfully spawned child as the OS/runtime hands it back: a captured
pipe handle exists exactly for the streams that were configured as piped, and
the process records the kill-on-drop flag. -/
structure Child where
  stdinHandle : Option Unit
  stdoutHandle : Option Unit
  proc : ChildProc
deriving DecidableEq

/-- OS/runtime behaviour of `Command::spawn` on success: pipe handles for the
piped streams, a running process carrying the configured kill-on-drop flag. -/
def Command.spawn (c : Command) : Child :=
  { stdinHandle := if c.stdin_cfg = Stdio.piped then some () else none
  , stdoutHandle := if c.stdout_cfg = Stdio.piped then some () else none
  , proc := { running := true, killOnDropFlag := c.kill_on_drop_flag } }

/-- Tokio ownership semantics for dropping an owned `Child` that has not been
reaped: when the kill-on-drop flag is set the runtime terminates the process,
otherwise the process is left running (orphaned). -/
def dropChild (c : ChildProc) : ChildProc :=
  if c.killOnDropFlag then { c with running := false } else c

/-- Modelled from the spec: `R2PipeSpawnOptions` is declared at the crate root,
outside the provided source; the async spawn reads its `exepath` and `args`
fields, which the spec describes as the executable path and the additional
command-line arguments. -/
structure R2PipeSpawnOptions where
  exepath : String
  args : List String
deriving DecidableEq

/-- State of `R2PipeSpawnAsync`: `read` is the byte stream still pending on the
child's standard output (behind the `BufReader`), `write` is the trace of bytes
written so far to the child's standard input, `child` the optionally owned
child process handle. -/
structure R2PipeSpawnAsync where
  read : List Nat
  write : List Nat
  child : Option ChildProc
deriving DecidableEq

/-- `R2PipeAsync`: tagged union over the pipe transport (single variant). -/
inductive R2PipeAsync where
  | Pipe (x : R2PipeSpawnAsync)
deriving DecidableEq

/-- Projection onto the pipe transport state. -/
def R2PipeAsync.state : R2PipeAsync → R2PipeSpawnAsync
  | R2PipeAsync.Pipe x => x

/-- `R2PipeSpawnAsync::cmd`: append a newline to the command text, write the
resulting bytes to the child's standard input, then read the child's standard
output up to and including the first null byte and hand the bytes read to
`process_result`. -/
def R2PipeSpawnAsync.cmd (self : R2PipeSpawnAsync) (cmd : String) :
    Except Error String × R2PipeSpawnAsync :=
  let cmd := cmd ++ "\n"
  let self := { self with write := self.write ++ utf8Encode cmd }
  let p := read_until 0 self.read
  (process_result p.1, { self with read := p.2 })

/-- `R2PipeSpawnAsync::cmdj`: run `cmd`; an empty response text is the
`EmptyResponse` error; otherwise parse the text as JSON. The external JSON
parser (`serde_json::from_str`) is abstracted as the `parse` argument; a parse
failure is mapped into the `MalformedJson` error kind wrapping the parser's
diagnostic (the crate's `From` conversion on the `?` operator). -/
def R2PipeSpawnAsync.cmdj {α : Type} (parse : String → Except String α)
    (self : R2PipeSpawnAsync) (cmd : String) : Except Error α × R2PipeSpawnAsync :=
  match R2PipeSpawnAsync.cmd self cmd with
  | (Except.error e, self') => (Except.error e, self')
  | (Except.ok result, self') =>
    if result = "" then (Except.error Error.EmptyResponse, self')
    else
      match parse result with
      | Except.ok v => (Except.ok v, self')
      | Except.error e => (Except.error (Error.MalformedJson e), self')

/-- `R2PipeSpawnAsync::close` as written in the source: both `self.cmd("q!")`
and `child.wait()` are calls to async functions whose returned futures are
bound to `_` and dropped without ever being awaited. A never-polled future has
no effect, so neither the quit-command write nor the wait takes place; the
state is returned unchanged. The dropped futures are modelled as thunks that
are never applied. -/
def R2PipeSpawnAsync.close (self : R2PipeSpawnAsync) : R2PipeSpawnAsync :=
  let _unawaitedCmdFuture := fun (_ : Unit) => R2PipeSpawnAsync.cmd self "q!"
  let _unawaitedWaitFuture := fun (_ : Unit) => self.child
  self

/-- `R2PipeAsync::cmd`: trim the caller's text, then delegate to the pipe
transport. -/
def R2PipeAsync.cmd (self : R2PipeAsync) (c : String) :
    Except Error String × R2PipeAsync :=
  match self with
  | R2PipeAsync.Pipe x =>
    let p := R2PipeSpawnAsync.cmd x (rustTrim c)
    (p.1, R2PipeAsync.Pipe p.2)

/-- `R2PipeAsync::cmdj`: trim the caller's text, then delegate to the pipe
transport's JSON command. -/
def R2PipeAsync.cmdj {α : Type} (parse : String → Except String α)
    (self : R2PipeAsync) (c : String) : Except Error α × R2PipeAsync :=
  match self with
  | R2PipeAsync.Pipe x =>
    let p := R2PipeSpawnAsync.cmdj parse x (rustTrim c)
    (p.1, R2PipeAsync.Pipe p.2)

/-- The command line built by `R2PipeAsync::spawn`: executable from the options
(default "r2"), then `-q0`, then the extra arguments, then the target path,
with both standard streams piped and kill-on-drop set. -/
def R2PipeAsync.spawnCommand (name : String)
    (opts : Option R2PipeSpawnOptions) : Command :=
  let exepath :=
    match opts with
    | some opt => opt.exepath
    | none => "r2"
  let args :=
    match opts with
    | some opt => opt.args
    | none => []
  Command.kill_on_drop
    (Command.stdout
      (Command.stdin
        (Command.arg (Command.args (Command.arg (Command.new exepath) "-q0") args)
          name)
        Stdio.piped)
      Stdio.piped)
    true

/-- Outcome of `R2PipeAsync::spawn`: a transport, a returned error, or a panic
(the `unwrap` calls on the taken stream handles). -/
inductive SpawnOutcome where
  | ok (r : R2PipeAsync)
  | err (e : Error)
  | panicked
deriving DecidableEq

/-- `R2PipeAsync::spawn`: build the command line, spawn the child, take and
unwrap the stdin/stdout handles (a missing handle is a panic), read exactly one
byte from the child's standard output (the startup sentinel) and discard it,
then return the transport. `stdoutData` models the content of the child's
standard output stream; `read_exact` on a one-byte buffer fails when the stream
is empty (spec: a failing handshake read fails the spawn). -/
def R2PipeAsync.spawn (name : String) (opts : Option R2PipeSpawnOptions)
    (stdoutData : List Nat) : SpawnOutcome :=
  let child := (R2PipeAsync.spawnCommand name opts).spawn
  match child.stdinHandle with
  | none => SpawnOutcome.panicked
  | some _ =>
    match child.stdoutHandle with
    | none => SpawnOutcome.panicked
    | some _ =>
      match stdoutData with
      | [] => SpawnOutcome.err Error.SpawnFailed
      | _ :: rest =>
        SpawnOutcome.ok (R2PipeAsync.Pipe
          { read := rest, write := [], child := some child.proc })

/-! ### Helper lemmas -/

theorem utf8Encode_append (s t : String) :
    utf8Encode (s ++ t) = utf8Encode s ++ utf8Encode t := by
  simp [utf8Encode]

theorem utf8Encode_newline (s : String) :
    utf8Encode (s ++ "\n") = utf8Encode s ++ [10] := by
  rw [utf8Encode_append]
  rfl

theorem read_until_split (R rest : List Nat) (h : 0 ∉ R) :
    read_until 0 (R ++ 0 :: rest) = (R ++ [0], rest) := by
  induction R with
  | nil => simp [read_until]
  | cons b t ih =>
    have hb : ¬(b = 0) := fun hb => h (hb ▸ List.mem_cons_self b t)
    have ht : (0 : Nat) ∉ t := fun hm => h (List.mem_cons_of_mem b hm)
    simp [read_until, hb, ih ht]

theorem read_until_eof (l : List Nat) (h : 0 ∉ l) :
    read_until 0 l = (l, []) := by
  induction l with
  | nil => rfl
  | cons b t ih =>
    have hb : ¬(b = 0) := fun hb => h (hb ▸ List.mem_cons_self b t)
    have ht : (0 : Nat) ∉ t := fun hm => h (List.mem_cons_of_mem b hm)
    simp [read_until, hb, ih ht]

theorem process_result_terminated (R : List Nat) (S : String)
    (hd : utf8Decode R = some S) :
    process_result (R ++ [0]) = Except.ok S := by
  simp [process_result, List.getLast?_concat, List.dropLast_concat, hd]

theorem process_result_eof (l : List Nat) (h : 0 ∉ l) :
    process_result l = Except.error Error.ProtocolError := by
  have hl : ¬(l.getLast? = some 0) :=
    fun heq => h (List.mem_of_getLast?_eq_some heq)
  simp [process_result, hl]

theorem cmd_eq (r w : List Nat) (ch : Option ChildProc) (c : String) :
    R2PipeSpawnAsync.cmd ⟨r, w, ch⟩ c =
      (process_result (read_until 0 r).1,
       ⟨(read_until 0 r).2, w ++ (utf8Encode c ++ [10]), ch⟩) := by
  simp [R2PipeSpawnAsync.cmd, utf8Encode_newline]

theorem cmd_write_trace (r w : List Nat) (ch : Option ChildProc) (c : String) :
    (R2PipeSpawnAsync.cmd ⟨r, w, ch⟩ c).2.write = w ++ (utf8Encode c ++ [10]) := by
  rw [cmd_eq]

theorem cmdj_state {α : Type} (parse : String → Except String α)
    (self : R2PipeSpawnAsync) (c : String) :
    (R2PipeSpawnAsync.cmdj parse self c).2 = (R2PipeSpawnAsync.cmd self c).2 := by
  unfold R2PipeSpawnAsync.cmdj
  cases h : R2PipeSpawnAsync.cmd self c with
  | mk res st =>
    cases res with
    | error e => rfl
    | ok r =>
      by_cases hr : r = ""
      · simp [hr]
      · cases hp : parse r <;> simp [hr, hp]

/-! ### Claim theorems -/

/-- C1: `cmd` writes the request text followed by a newline to the child's
stdin and reads the child's stdout up to and including the first null byte;
the returned string equals the bytes read before the terminator decoded as
UTF-8, the terminator excluded; an immediate terminator yields the empty
string as a success. -/
theorem cmd_roundtrip_frame (T S : String) (R rest tr : List Nat)
    (ch : Option ChildProc) (hR : 0 ∉ R) (hS : utf8Decode R = some S) :
    R2PipeSpawnAsync.cmd ⟨R ++ 0 :: rest, tr, ch⟩ T =
      (Except.ok S, ⟨rest, tr ++ (utf8Encode T ++ [10]), ch⟩) := by
  rw [cmd_eq, read_until_split R rest hR]
  simp [process_result_terminated R S hS]

/-- C1 witness: a frame of the bytes of "hi" and an empty frame, both on
concrete streams. -/
theorem cmd_roundtrip_frame_witness :
    (R2PipeSpawnAsync.cmd ⟨[104, 105, 0, 7], [], none⟩ "x" =
      (Except.ok "hi", ⟨[7], [] ++ (utf8Encode "x" ++ [10]), none⟩))
    ∧ (R2PipeSpawnAsync.cmd ⟨[0], [], none⟩ "x" =
      (Except.ok "", ⟨[], [] ++ (utf8Encode "x" ++ [10]), none⟩)) :=
  ⟨cmd_roundtrip_frame "x" "hi" [104, 105] [7] [] none (by decide) (by decide),
   cmd_roundtrip_frame "x" "" [] [] [] none (by decide) (by decide)⟩

/-- C2: when the underlying `cmd` succeeds, `cmdj` fails with `EmptyResponse`
exactly when the response text is empty, and fails with `MalformedJson`
exactly when the response text is non-empty and the JSON parse fails. -/
theorem cmdj_error_kinds {α : Type} (parse : String → Except String α)
    (self self' : R2PipeSpawnAsync) (c r : String)
    (h : R2PipeSpawnAsync.cmd self c = (Except.ok r, self')) :
    (((R2PipeSpawnAsync.cmdj parse self c).1
        = Except.error Error.EmptyResponse) ↔ r = "")
    ∧ ((∃ e, (R2PipeSpawnAsync.cmdj parse self c).1
        = Except.error (Error.MalformedJson e))
        ↔ (r ≠ "" ∧ ∃ e, parse r = Except.error e)) := by
  unfold R2PipeSpawnAsync.cmdj
  rw [h]
  by_cases hr : r = ""
  · subst hr
    simp
  · cases hp : parse r with
    | ok v => simp [hr, hp]
    | error e => simp [hr, hp]

/-- C2 witness: a parser that always fails, against an empty frame. -/
theorem cmdj_error_kinds_witness :
    (((R2PipeSpawnAsync.cmdj
        (fun (_ : String) => (Except.error "bad" : Except String Nat))
        ⟨[0], [], none⟩ "i").1 = Except.error Error.EmptyResponse)
      ↔ ("" : String) = "")
    ∧ ((∃ e, (R2PipeSpawnAsync.cmdj
        (fun (_ : String) => (Except.error "bad" : Except String Nat))
        ⟨[0], [], none⟩ "i").1 = Except.error (Error.MalformedJson e))
      ↔ (("" : String) ≠ "" ∧ ∃ e, (fun (_ : String) =>
          (Except.error "bad" : Except String Nat)) "" = Except.error e)) :=
  cmdj_error_kinds (fun (_ : String) => (Except.error "bad" : Except String Nat))
    ⟨[0], [], none⟩ ⟨[], [105, 10], none⟩ "i" "" rfl

/-- C3 (code bug evidence): on a concrete freshly spawned state, `close` as
written leaves the transport state — in particular the stdin write trace —
entirely unchanged, because the futures of `self.cmd("q!")` and
`child.wait()` are dropped without being awaited; by contrast, an actually
awaited `cmd "q!"` on the same state would have appended the bytes of
"q!\n" (113, 33, 10) to the write trace. -/
theorem close_never_sends_quit :
    (R2PipeSpawnAsync.close ⟨[0], [], some ⟨true, true⟩⟩
        = ⟨[0], [], some ⟨true, true⟩⟩)
    ∧ (R2PipeSpawnAsync.cmd ⟨[0], [], some ⟨true, true⟩⟩ "q!").2.write
        = [113, 33, 10] := by
  exact ⟨rfl, by decide⟩

/-- C4: the command line built by `spawn` is the executable (the options'
`exepath`, defaulting to "r2"), then the unconditional `-q0` flag, then the
caller-supplied extra arguments in order, then the target path as the final
positional argument; the extra arguments default to the empty list. -/
theorem spawnCommand_argv (name : String) (opts : Option R2PipeSpawnOptions) :
    (R2PipeAsync.spawnCommand name opts).program
        = (match opts with | some o => o.exepath | none => "r2")
    ∧ (R2PipeAsync.spawnCommand name opts).argv
        = "-q0" :: ((match opts with | some o => o.args | none => []) ++ [name]) := by
  cases opts <;>
    simp [R2PipeAsync.spawnCommand, Command.new, Command.arg, Command.args,
      Command.stdin, Command.stdout, Command.kill_on_drop]

/-- C5: a successful `spawn` consumes exactly the first byte of the child's
standard output (the startup sentinel) before returning; the transport it
returns reads from the remainder of the stream, so the sentinel byte appears
in no subsequent response. -/
theorem spawn_discards_one_byte (name : String)
    (opts : Option R2PipeSpawnOptions) (b : Nat) (rest : List Nat) :
    R2PipeAsync.spawn name opts (b :: rest)
      = SpawnOutcome.ok (R2PipeAsync.Pipe
          ⟨rest, [], some ⟨true, true⟩⟩) := by
  cases opts <;> rfl

/-- C6: when end-of-stream is reached before a null byte appears, `cmd` fails
with `ProtocolError` instead of returning the partial frame as a success. -/
theorem cmd_eof_protocol_error (r w : List Nat) (ch : Option ChildProc)
    (T : String) (h : 0 ∉ r) :
    (R2PipeSpawnAsync.cmd ⟨r, w, ch⟩ T).1 = Except.error Error.ProtocolError := by
  rw [cmd_eq]
  simp [read_until_eof r h, process_result_eof r h]

/-- C6 witness: a stream holding two bytes and no null terminator. -/
theorem cmd_eof_protocol_error_witness :
    (R2PipeSpawnAsync.cmd ⟨[65, 66], [], none⟩ "x").1
        = Except.error Error.ProtocolError :=
  cmd_eof_protocol_error [65, 66] [] none "x" (by decide)

/-- C7: when the response frame decodes to non-empty text that the JSON
parser accepts, `cmdj` returns exactly the parser's value. -/
theorem cmdj_parses_response {α : Type} (parse : String → Except String α)
    (self self' : R2PipeSpawnAsync) (c r : String) (v : α)
    (h : R2PipeSpawnAsync.cmd self c = (Except.ok r, self'))
    (hne : r ≠ "") (hp : parse r = Except.ok v) :
    R2PipeSpawnAsync.cmdj parse self c = (Except.ok v, self') := by
  unfold R2PipeSpawnAsync.cmdj
  rw [h]
  simp [hne, hp]

/-- C7 witness: the frame "[1]" with a parser that accepts it. -/
theorem cmdj_parses_response_witness :
    R2PipeSpawnAsync.cmdj
        (fun (_ : String) => (Except.ok 7 : Except String Nat))
        ⟨[91, 49, 93, 0], [], none⟩ "ij"
      = (Except.ok 7, ⟨[], [105, 106, 10], none⟩) :=
  cmdj_parses_response (fun (_ : String) => (Except.ok 7 : Except String Nat))
    ⟨[91, 49, 93, 0], [], none⟩ ⟨[], [105, 106, 10], none⟩ "ij" "[1]" 7
    rfl (by decide) rfl

/-- C8: the caller-facing `cmd` and `cmdj` trim the caller's text of leading
and trailing whitespace before transmission, and the bytes written to the
child's stdin are exactly the trimmed text followed by a single newline. -/
theorem caller_cmd_trims (r w : List Nat) (ch : Option ChildProc) (c : String) :
    ((R2PipeAsync.cmd (R2PipeAsync.Pipe ⟨r, w, ch⟩) c).2.state.write
        = w ++ (utf8Encode (rustTrim c) ++ [10]))
    ∧ ∀ (α : Type) (parse : String → Except String α),
      ((R2PipeAsync.cmdj parse (R2PipeAsync.Pipe ⟨r, w, ch⟩) c).2.state.write
        = w ++ (utf8Encode (rustTrim c) ++ [10])) := by
  constructor
  · simp [R2PipeAsync.cmd, R2PipeAsync.state, cmd_write_trace]
  · intro α parse
    simp [R2PipeAsync.cmdj, R2PipeAsync.state, cmdj_state, cmd_write_trace]

/-- C9: the child is spawned with the kill-on-drop flag set, so a transport
discarded without `close` has its subprocess terminated by the runtime when
the owning value is dropped. -/
theorem spawned_child_killed_on_drop (name : String)
    (opts : Option R2PipeSpawnOptions) (data : List Nat)
    (x : R2PipeSpawnAsync) (cp : ChildProc)
    (hok : R2PipeAsync.spawn name opts data
        = SpawnOutcome.ok (R2PipeAsync.Pipe x))
    (hcp : x.child = some cp) :
    cp.killOnDropFlag = true ∧ (dropChild cp).running = false := by
  cases opts <;> cases data <;>
    simp [R2PipeAsync.spawn, R2PipeAsync.spawnCommand, Command.new,
      Command.arg, Command.args, Command.stdin, Command.stdout,
      Command.kill_on_drop, Command.spawn] at hok <;>
    subst hok <;> simp at hcp <;> subst hcp <;> simp [dropChild]

/-- C9 witness: spawning with no options against a one-byte sentinel stream. -/
theorem spawned_child_killed_on_drop_witness :
    (⟨true, true⟩ : ChildProc).killOnDropFlag = true
    ∧ (dropChild ⟨true, true⟩).running = false :=
  spawned_child_killed_on_drop "t" none [0] ⟨[], [], some ⟨true, true⟩⟩
    ⟨true, true⟩ rfl rfl

/-- C10: `spawn` never panics on the handle-extraction path: both standard
streams are unconditionally configured as piped before spawning, so the
outcome is always either a transport or a returned error. -/
theorem spawn_never_panics (name : String) (opts : Option R2PipeSpawnOptions)
    (data : List Nat) :
    (∃ x, R2PipeAsync.spawn name opts data
        = SpawnOutcome.ok (R2PipeAsync.Pipe x))
    ∨ R2PipeAsync.spawn name opts data = SpawnOutcome.err Error.SpawnFailed := by
  cases opts <;> cases data <;>
    first
      | exact Or.inr rfl
      | exact Or.inl ⟨_, rfl⟩
